import Mathlib

/-!
Shallow embedding of the OAuth2/PKCE auth-session flow and the event
synchronization logic of the Intentive mobile app (zustand auth store,
`useEvents` hook, and the HomeScreen variant of `useEvents` that pushes to
the external Google Calendar provider through the backend proxy).

External services (Google token endpoint, Supabase auth, the backend sync
proxy, the Supabase event store) are modelled as oracles supplied in an
environment record; each externally visible call is recorded in an effect
trace so that claims about which calls happen, in which order, can be
stated and proved.
-/

/-- Outcome of an awaited `fetch` call: the promise either rejects
(network failure, which the surrounding `try` sees as a thrown error) or
resolves with a response whose `ok` flag and parsed body are given. -/
inductive FetchOutcome (α : Type) where
  | reject
  | respond (ok : Bool) (body : α)
  deriving DecidableEq, Repr

/-- JSON body returned by the Google token endpoint, as destructured in the
source: `const { id_token, access_token, refresh_token, expires_in } = tokens`.
Only `id_token` (checked for presence) and `expires_in` (defaulted with
`|| 3600`) are inspected; the token strings are passed through. -/
structure TokenBody where
  idToken : Option String
  accessToken : String
  refreshToken : String
  expiresIn : Option Int
  deriving DecidableEq, Repr

/-- Result of `supabase.auth.signInWithIdToken`: the source checks
`signInError` and then `data.user`; `data.session?.access_token` is used as
the bearer for the token-storage call. -/
inductive SignInResult where
  | err
  | okNoUser
  | okUser (userId : String) (sessionToken : Option String)
  deriving DecidableEq, Repr

/-- Errors thrown out of `handleAuthResponse` (re-thrown by its catch
block after logging). -/
inductive AuthError where
  | exchangeNetError
  | exchangeFailed
  | noIdToken
  | identitySignInError
  | noUser
  | storeNetError
  deriving DecidableEq, Repr

/-- Errors thrown out of `signInWithGoogle`. -/
inductive SignInErr where
  | notInitialized
  | promptThrew
  deriving DecidableEq, Repr

/-- Externally visible actions of the auth flow, in issue order. -/
inductive AuthEffect where
  | prompt
  | tokenExchange (code codeVerifier : String)
  | identitySignIn (idToken : String)
  | storeTokens (userId accessToken refreshToken : String) (expiresAt : Int)
      (bearer : Option String)
  | logError (msg : String)
  | logInfo (msg : String)
  deriving DecidableEq, Repr

/-- Oracle for the external services contacted by `handleAuthResponse`:
the Google token endpoint, Supabase identity sign-in, and the backend
`/api/sync/tokens` store call; `now` is `Date.now()`. -/
structure AuthEnv where
  exchange : String → String → FetchOutcome TokenBody
  signIn : String → SignInResult
  store : FetchOutcome Unit
  now : Int

/-- The slice of the zustand auth store state that `handleAuthResponse` and
`signInWithGoogle` read or write: the `authLoading` busy flag, the set of
already-processed authorization codes, and whether `promptAsync` has been
initialized by `useAuthSession`. -/
structure AuthState where
  authLoading : Bool
  processedCodes : List String
  promptReady : Bool
  deriving DecidableEq, Repr

/-- Body of the `try` block of `handleAuthResponse` (the code has already
been recorded as processed and `authLoading` set).  Returns the effect
trace and the result; the catch block logs and re-throws, so every error
branch ends with the `Google sign-in error:` log entry. -/
def processCode (env : AuthEnv) (code codeVerifier : String) :
    List AuthEffect × Except AuthError Unit :=
  match env.exchange code codeVerifier with
  | .reject =>
      ([.tokenExchange code codeVerifier, .logError "Google sign-in error:"],
       .error .exchangeNetError)
  | .respond ok body =>
      if ok = false then
        ([.tokenExchange code codeVerifier, .logError "Token exchange error:",
          .logError "Google sign-in error:"], .error .exchangeFailed)
      else
        match body.idToken with
        | none =>
            ([.tokenExchange code codeVerifier, .logError "Google sign-in error:"],
             .error .noIdToken)
        | some idToken =>
            match env.signIn idToken with
            | .err =>
                ([.tokenExchange code codeVerifier, .identitySignIn idToken,
                  .logError "Google sign-in error:"], .error .identitySignInError)
            | .okNoUser =>
                ([.tokenExchange code codeVerifier, .identitySignIn idToken,
                  .logError "Google sign-in error:"], .error .noUser)
            | .okUser uid sessTok =>
                let expiresAt := env.now + body.expiresIn.getD 3600 * 1000
                let pre := [AuthEffect.tokenExchange code codeVerifier,
                            AuthEffect.identitySignIn idToken,
                            AuthEffect.storeTokens uid body.accessToken
                              body.refreshToken expiresAt sessTok]
                match env.store with
                | .reject =>
                    (pre ++ [.logError "Google sign-in error:"], .error .storeNetError)
                | .respond ok2 _ =>
                    if ok2 then
                      (pre ++ [.logInfo "Successfully signed in with Google"], .ok ())
                    else
                      (pre ++ [.logError "Failed to store Google tokens for calendar sync",
                               .logInfo "Successfully signed in with Google"], .ok ())

/-- `handleAuthResponse(code, codeVerifier)` of the zustand auth store.
If the code is already in `processedCodes` it returns immediately (no state
change, no external call, no error).  Otherwise it records the code, sets
`authLoading`, runs the exchange / sign-in / token-store steps, and the
`finally` block clears `authLoading` on every completed path. -/
def handleAuthResponse (env : AuthEnv) (st : AuthState) (code codeVerifier : String) :
    AuthState × List AuthEffect × Except AuthError Unit :=
  if st.processedCodes.contains code then
    (st, [], .ok ())
  else
    let busy : AuthState :=
      { st with processedCodes := code :: st.processedCodes, authLoading := true }
    let p := processCode env code codeVerifier
    ({ busy with authLoading := false }, p.1, p.2)

/-- Outcome of `await promptAsync()`: the interactive consent prompt
resolves with `success`, is dismissed (`cancelled`), resolves with an
error result (`errored`), or the promise itself rejects (`threw`). -/
inductive PromptResult where
  | success (code : String)
  | cancelled
  | errored
  | threw
  deriving DecidableEq, Repr

/-- `signInWithGoogle` of the zustand auth store: throws if `promptAsync`
is not initialized, otherwise sets `authLoading` and launches the prompt;
a non-success result clears the flag, a thrown prompt clears the flag and
re-throws, and on success the flag is left set for the redirect-handling
path (`useAuthSession` / `handleAuthResponse`) to clear. -/
def signInWithGoogle (st : AuthState) (pr : PromptResult) :
    AuthState × List AuthEffect × Except SignInErr Unit :=
  if st.promptReady = false then
    (st, [], .error .notInitialized)
  else
    let busy : AuthState := { st with authLoading := true }
    match pr with
    | .threw => ({ busy with authLoading := false }, [.prompt], .error .promptThrew)
    | .success _ => (busy, [.prompt], .ok ())
    | .cancelled => ({ busy with authLoading := false }, [.prompt], .ok ())
    | .errored => ({ busy with authLoading := false }, [.prompt], .ok ())

/-- Recognizes the token-exchange call in a trace. -/
def isExchange : AuthEffect → Bool
  | .tokenExchange _ _ => true
  | _ => false

/-- Recognizes the backend identity sign-in call in a trace. -/
def isSignIn : AuthEffect → Bool
  | .identitySignIn _ => true
  | _ => false

/-!
Event synchronization (`useEvents` hook; the HomeScreen variant adds the
best-effort push/delete to the external Google Calendar provider through
the backend proxy).  Timestamps are milliseconds since the Unix epoch,
the integer value underlying a JS `Date`; ISO-string comparison on the
stored `start_time` / `end_time` columns agrees with this order.
-/

/-- A row of the `events` table (`CalendarEvent` in `lib/supabase`). -/
structure CalendarEvent where
  id : String
  userId : String
  googleEventId : Option String
  title : String
  description : Option String
  startTime : Int
  endTime : Int
  allDay : Bool
  deriving DecidableEq, Repr

/-- Days since the Unix epoch of the civil date `y-m-d` (month 1-based),
the standard civil-from-days inverse used by `Date.UTC`. -/
def daysFromCivil (y m d : Int) : Int :=
  let y := if m ≤ 2 then y - 1 else y
  let era := (if 0 ≤ y then y else y - 399).fdiv 400
  let yoe := y - era * 400
  let doy := (153 * (if 2 < m then m - 3 else m + 9) + 2).fdiv 5 + d - 1
  let doe := yoe * 365 + yoe.fdiv 4 - yoe.fdiv 100 + doy
  era * 146097 + doe - 719468

/-- `Date.UTC(y, monthIndex, d, h, mi, s, ms)` with a 1-based month `m`
(`monthIndex = m - 1`), as milliseconds since the epoch. -/
def dateUTC (y m d h mi s ms : Int) : Int :=
  daysFromCivil y m d * 86400000 + h * 3600000 + mi * 60000 + s * 1000 + ms

/-- The calendar day selected in the UI, as its year/month/day components
(month 1-based). -/
structure CivilDate where
  year : Int
  month : Int
  day : Int
  deriving DecidableEq, Repr

/-- `getUTCDayBounds`: midnight UTC and 23:59:59.999 UTC of the selected
components of the selected date. -/
def getUTCDayBounds (date : CivilDate) : Int × Int :=
  (dateUTC date.year date.month date.day 0 0 0 0,
   dateUTC date.year date.month date.day 23 59 59 999)

/-- The row filter of the `fetchEvents` query:
`eq(user_id, u)`, `lte(start_time, endOfDay)`, `gte(end_time, startOfDay)`. -/
def activeOn (u : String) (lo hi : Int) (e : CalendarEvent) : Bool :=
  e.userId == u && decide (e.startTime ≤ hi) && decide (lo ≤ e.endTime)

/-- The `order(start_time, ascending)` relation. -/
def startLE (a b : CalendarEvent) : Prop := a.startTime ≤ b.startTime

instance : DecidableRel startLE := fun a b => Int.decLe a.startTime b.startTime

instance : IsTotal CalendarEvent startLE := ⟨fun a b => Int.le_total a.startTime b.startTime⟩

instance : IsTrans CalendarEvent startLE := ⟨fun _ _ _ => Int.le_trans⟩

/-- `listActive(u, day)`: the remote-store query issued by `fetchEvents` —
the events of `u` overlapping the UTC day window, ordered by `start_time`
ascending. -/
def listActive (store : List CalendarEvent) (u : String) (date : CivilDate) :
    List CalendarEvent :=
  let b := getUTCDayBounds date
  List.insertionSort startLE (store.filter (activeOn u b.1 b.2))

/-- The `useEvents` hook state touched by `fetchEvents`: the cached
`events` list and the `loading` flag. -/
structure EventsState where
  events : List CalendarEvent
  loading : Bool
  deriving DecidableEq, Repr

/-- Whether the remote-store query itself executes or fails
(transport/query error reported in the `error` field of the response). -/
inductive QueryOutcome where
  | fail
  | ok
  deriving DecidableEq, Repr

/-- Errors thrown out of the event CRUD functions (a non-null `error` on
the awaited supabase call, re-thrown by `if (error) throw error`). -/
inductive SyncError where
  | persistError
  | updateError
  | deleteError
  deriving DecidableEq, Repr

/-- Externally visible actions of the event-sync functions, in issue
order. -/
inductive StoreEffect where
  | query (userId : String) (lo hi : Int)
  | insert (userId : String) (title : String) (startTime endTime : Int)
  | pushExternal (id : String)
  | patchExternalId (id gid : String)
  | lookup (id userId : String)
  | externalDelete (id gid : String)
  | localDelete (id userId : String)
  | localUpdate (id userId : String)
  | refetch
  | logError (msg : String)
  deriving DecidableEq, Repr

/-- `fetchEvents`: returns immediately when no user is authenticated;
otherwise queries the day window.  A query failure is caught, logged, and
swallowed (the cached events are left unchanged); the `finally` block
clears `loading` either way, and the function itself never rejects. -/
def fetchEvents (user : Option String) (store : List CalendarEvent)
    (q : QueryOutcome) (selectedDate : CivilDate) (st : EventsState) :
    EventsState × List StoreEffect × Except SyncError Unit :=
  match user with
  | none => (st, [], .ok ())
  | some u =>
      let b := getUTCDayBounds selectedDate
      match q with
      | .fail =>
          ({ st with loading := false },
           [.query u b.1 b.2, .logError "Error fetching events:"], .ok ())
      | .ok =>
          ({ events := listActive store u selectedDate, loading := false },
           [.query u b.1 b.2], .ok ())

/-- The fields of the new-event object passed to `createEvent` before
`user_id` is attached. -/
structure EventDraft where
  title : String
  description : Option String
  startTime : Int
  endTime : Int
  allDay : Bool
  deriving DecidableEq, Repr

/-- Outcome of the best-effort backend-proxy call (`/api/sync/events`):
the fetch rejects (caught and logged) or resolves; on an ok response the
body may carry a `googleEventId`. -/
inductive PushOutcome where
  | reject
  | respond (ok : Bool) (googleEventId : Option String)
  deriving DecidableEq, Repr

/-- The row inserted by `createEvent`: the draft with `user_id` attached
and the store-assigned `id`. -/
def insertedRow (u newId : String) (draft : EventDraft) : CalendarEvent :=
  { id := newId, userId := u, googleEventId := none, title := draft.title,
    description := draft.description, startTime := draft.startTime,
    endTime := draft.endTime, allDay := draft.allDay }

/-- `createEvent` (HomeScreen variant): returns immediately with no user;
inserts locally first (`PersistError` on failure aborts the whole call);
then, when a session token and backend URL are available, best-effort
pushes the inserted row to the external provider — a rejected fetch is
caught and logged, a non-ok response is logged, and an ok response with a
`googleEventId` patches the row (by `id` only); every push outcome leaves
the call to resolve successfully; finally re-fetches. -/
def createEvent (user : Option String) (store : List CalendarEvent)
    (draft : EventDraft) (newId : String) (insertFails : Bool)
    (backendConfigured : Bool) (sessionToken : Option String)
    (push : PushOutcome) :
    List CalendarEvent × List StoreEffect × Except SyncError Unit :=
  match user with
  | none => (store, [], .ok ())
  | some u =>
      let ins : StoreEffect := .insert u draft.title draft.startTime draft.endTime
      if insertFails then (store, [ins], .error .persistError)
      else
        let e := insertedRow u newId draft
        let store1 := store ++ [e]
        match sessionToken, backendConfigured with
        | some _, true =>
            match push with
            | .reject =>
                (store1, [ins, .pushExternal newId,
                          .logError "Error syncing event to Google:", .refetch], .ok ())
            | .respond ok gid =>
                if ok then
                  match gid with
                  | some g =>
                      (store1.map fun x =>
                         if x.id == newId then { x with googleEventId := some g } else x,
                       [ins, .pushExternal newId, .patchExternalId newId g, .refetch],
                       .ok ())
                  | none => (store1, [ins, .pushExternal newId, .refetch], .ok ())
                else
                  (store1, [ins, .pushExternal newId,
                            .logError "Failed to push event to Google Calendar", .refetch],
                   .ok ())
        | _, _ => (store1, [ins, .refetch], .ok ())

/-- A `Partial<CalendarEvent>` patch: `none` means the field is absent. -/
structure EventPatch where
  googleEventId : Option (Option String) := none
  title : Option String := none
  description : Option (Option String) := none
  startTime : Option Int := none
  endTime : Option Int := none
  allDay : Option Bool := none
  deriving DecidableEq, Repr

/-- Applies a partial update to a row (present fields overwrite). -/
def applyPatch (p : EventPatch) (e : CalendarEvent) : CalendarEvent :=
  { e with googleEventId := p.googleEventId.getD e.googleEventId,
           title := p.title.getD e.title,
           description := p.description.getD e.description,
           startTime := p.startTime.getD e.startTime,
           endTime := p.endTime.getD e.endTime,
           allDay := p.allDay.getD e.allDay }

/-- `updateEvent`: returns immediately with no user; otherwise issues one
update conditioned on `id` and `user_id` both matching.  `updateFails`
models a non-null query `error` (transport failure); a zero-row match is
not an error — the call resolves with nothing changed. -/
def updateEvent (user : Option String) (store : List CalendarEvent)
    (id : String) (p : EventPatch) (updateFails : Bool) :
    List CalendarEvent × List StoreEffect × Except SyncError Unit :=
  match user with
  | none => (store, [], .ok ())
  | some u =>
      if updateFails then (store, [.localUpdate id u], .error .updateError)
      else
        (store.map fun e => if e.id == id && e.userId == u then applyPatch p e else e,
         [.localUpdate id u, .refetch], .ok ())

/-- `deleteEvent` of the `useEvents` hook (no external propagation):
returns immediately with no user; otherwise issues one delete conditioned
on `id` and `user_id` both matching.  A zero-row match is not an error. -/
def deleteEventLocal (user : Option String) (store : List CalendarEvent)
    (id : String) (deleteFails : Bool) :
    List CalendarEvent × List StoreEffect × Except SyncError Unit :=
  match user with
  | none => (store, [], .ok ())
  | some u =>
      if deleteFails then (store, [.localDelete id u], .error .deleteError)
      else
        (store.filter fun e => !(e.id == id && e.userId == u),
         [.localDelete id u, .refetch], .ok ())

/-- `deleteEvent` (HomeScreen variant): returns immediately with no user;
looks up the row (ownership-scoped, `.single()` — data only when exactly
one row matches); if it carries a `google_event_id` and a backend URL and
session token are available, best-effort externally deletes first (a
rejected fetch is caught and logged; the response status is not checked);
then performs the ownership-scoped local delete and re-fetches. -/
def deleteEvent (user : Option String) (store : List CalendarEvent)
    (id : String) (backendConfigured : Bool) (sessionToken : Option String)
    (extDelete : PushOutcome) (localDeleteFails : Bool) :
    List CalendarEvent × List StoreEffect × Except SyncError Unit :=
  match user with
  | none => (store, [], .ok ())
  | some u =>
      let found : Option CalendarEvent :=
        match store.filter (fun e => e.id == id && e.userId == u) with
        | [e] => some e
        | _ => none
      let extTrace : List StoreEffect :=
        match found with
        | some e =>
            match e.googleEventId, backendConfigured, sessionToken with
            | some gid, true, some _ =>
                match extDelete with
                | .reject =>
                    [.lookup id u, .externalDelete id gid,
                     .logError "Error deleting event from Google:"]
                | .respond _ _ => [.lookup id u, .externalDelete id gid]
            | _, _, _ => [.lookup id u]
        | none => [.lookup id u]
      if localDeleteFails then (store, extTrace ++ [.localDelete id u], .error .deleteError)
      else
        (store.filter fun e => !(e.id == id && e.userId == u),
         extTrace ++ [.localDelete id u, .refetch], .ok ())

/-- Replay branch of `handleAuthResponse`: an already-seen code is a no-op. -/
lemma handleAuthResponse_seen (env : AuthEnv) (st : AuthState) (c v : String)
    (h : st.processedCodes.contains c = true) :
    handleAuthResponse env st c v = (st, [], .ok ()) := by
  have hm : c ∈ st.processedCodes := by simpa using h
  simp [handleAuthResponse, hm]

/-- Processing branch of `handleAuthResponse`: an unseen code is recorded and
handed to `processCode`, and `authLoading` ends cleared. -/
lemma handleAuthResponse_unseen (env : AuthEnv) (st : AuthState) (c v : String)
    (h : st.processedCodes.contains c = false) :
    handleAuthResponse env st c v =
      ({ st with processedCodes := c :: st.processedCodes, authLoading := false },
       (processCode env c v).1, (processCode env c v).2) := by
  have hm : c ∉ st.processedCodes := by simpa using h
  simp [handleAuthResponse, hm]

/-- A successful run of `processCode` issues exactly one token exchange and
exactly one backend identity sign-in. -/
lemma processCode_ok_counts (env : AuthEnv) (c v : String)
    (h : (processCode env c v).2 = Except.ok ()) :
    List.countP isExchange (processCode env c v).1 = 1 ∧
    List.countP isSignIn (processCode env c v).1 = 1 := by
  rcases hx : env.exchange c v with _ | ⟨ok, body⟩
  · simp [processCode, hx] at h
  · rcases ok with _ | _
    · simp [processCode, hx] at h
    · rcases hid : body.idToken with _ | tok
      · simp [processCode, hx, hid] at h
      · rcases hs : env.signIn tok with _ | _ | ⟨uid, sess⟩
        · simp [processCode, hx, hid, hs] at h
        · simp [processCode, hx, hid, hs] at h
        · rcases hst : env.store with _ | ⟨ok2, b2⟩
          · simp [processCode, hx, hid, hs, hst] at h
          · rcases ok2 with _ | _ <;>
              simp [processCode, hx, hid, hs, hst, isExchange, isSignIn,
                    List.countP_cons, List.countP_append]

/-- C1: for every authorization code `c` and verifier `v`, calling
`handleAuthResponse(c, v)` twice with the same pair performs the token
exchange and the backend identity sign-in exactly once; the second call is
a no-op that leaves the state unchanged and returns without error and
without issuing any external call. -/
theorem handleAuthResponse_replay_idempotent (env : AuthEnv) (st : AuthState) (c v : String)
    (h1 : st.processedCodes.contains c = false)
    (h2 : (handleAuthResponse env st c v).2.2 = Except.ok ()) :
    handleAuthResponse env (handleAuthResponse env st c v).1 c v
      = ((handleAuthResponse env st c v).1, [], Except.ok ())
    ∧ List.countP isExchange ((handleAuthResponse env st c v).2.1
        ++ (handleAuthResponse env (handleAuthResponse env st c v).1 c v).2.1) = 1
    ∧ List.countP isSignIn ((handleAuthResponse env st c v).2.1
        ++ (handleAuthResponse env (handleAuthResponse env st c v).1 c v).2.1) = 1 := by
  have hu := handleAuthResponse_unseen env st c v h1
  have hseen : ((handleAuthResponse env st c v).1).processedCodes.contains c = true := by
    rw [hu]; simp
  have hrep := handleAuthResponse_seen env (handleAuthResponse env st c v).1 c v hseen
  have hok : (processCode env c v).2 = Except.ok () := by
    rw [hu] at h2; exact h2
  have hc := processCode_ok_counts env c v hok
  refine ⟨hrep, ?_, ?_⟩ <;>
    rw [hrep, hu] <;> simp [List.countP_append, hc.1, hc.2]

/-- A token-endpoint response where every step succeeds. -/
def bodyOk : TokenBody :=
  { idToken := some "idt", accessToken := "at", refreshToken := "rt", expiresIn := some 3600 }

/-- Environment in which the exchange, the identity sign-in and the
token-storage call all succeed. -/
def envAllOk : AuthEnv :=
  { exchange := fun _ _ => .respond true bodyOk,
    signIn := fun _ => .okUser "uid" (some "sess"),
    store := .respond true (),
    now := 0 }

/-- Fresh auth-store state: not busy, no codes processed, request ready. -/
def st0 : AuthState := { authLoading := false, processedCodes := [], promptReady := true }

/-- Witness for C1 at a concrete fresh state and an all-success environment. -/
theorem handleAuthResponse_replay_idempotent_witness :
    handleAuthResponse envAllOk (handleAuthResponse envAllOk st0 "c" "v").1 "c" "v"
      = ((handleAuthResponse envAllOk st0 "c" "v").1, [], Except.ok ())
    ∧ List.countP isExchange ((handleAuthResponse envAllOk st0 "c" "v").2.1
        ++ (handleAuthResponse envAllOk (handleAuthResponse envAllOk st0 "c" "v").1 "c" "v").2.1) = 1
    ∧ List.countP isSignIn ((handleAuthResponse envAllOk st0 "c" "v").2.1
        ++ (handleAuthResponse envAllOk (handleAuthResponse envAllOk st0 "c" "v").1 "c" "v").2.1) = 1 :=
  handleAuthResponse_replay_idempotent envAllOk st0 "c" "v" rfl rfl

/-- Environment in which the token-storage fetch rejects (network failure)
after the exchange and the identity sign-in succeeded. -/
def envStoreNetFail : AuthEnv :=
  { exchange := fun _ _ => .respond true bodyOk,
    signIn := fun _ => .okUser "uid" (some "sess"),
    store := .reject,
    now := 0 }

/-- Counterexample to C2 as stated: when the token-storage forwarding fetch
itself rejects (a network-level failure of that step), the catch block of
`handleAuthResponse` re-throws, so the call fails instead of completing
successfully — the claim that ANY failure of this step is only logged is
false. -/
theorem storeTokens_reject_fails_signin :
    (handleAuthResponse envStoreNetFail st0 "c" "v").2.2
      = Except.error AuthError.storeNetError := rfl

/-- C2 amended: once the token exchange and the backend identity sign-in
have succeeded, a token-storage response with non-2xx status (`ok = false`)
is only logged and does not fail the overall sign-in — `handleAuthResponse`
still completes successfully.  (A network-level rejection of that same
fetch, by contrast, propagates as an error.) -/
theorem storeTokens_non2xx_nonfatal (env : AuthEnv) (st : AuthState) (c v tok : String)
    (body : TokenBody)
    (hc : st.processedCodes.contains c = false)
    (hex : env.exchange c v = .respond true body)
    (hid : body.idToken = some tok)
    (hsi : ∃ uid sess, env.signIn tok = .okUser uid sess)
    (hstore : env.store = .respond false ()) :
    (handleAuthResponse env st c v).2.2 = Except.ok ()
    ∧ AuthEffect.logError "Failed to store Google tokens for calendar sync"
        ∈ (handleAuthResponse env st c v).2.1 := by
  obtain ⟨uid, sess, hsi⟩ := hsi
  rw [handleAuthResponse_unseen env st c v hc]
  simp [processCode, hex, hid, hsi, hstore]

/-- Environment in which the token-storage call resolves with a non-2xx
status after the exchange and the identity sign-in succeeded. -/
def envStoreNon2xx : AuthEnv :=
  { exchange := fun _ _ => .respond true bodyOk,
    signIn := fun _ => .okUser "uid" (some "sess"),
    store := .respond false (),
    now := 0 }

/-- Witness for the amended C2 at a concrete environment. -/
theorem storeTokens_non2xx_nonfatal_witness :
    (handleAuthResponse envStoreNon2xx st0 "c" "v").2.2 = Except.ok ()
    ∧ AuthEffect.logError "Failed to store Google tokens for calendar sync"
        ∈ (handleAuthResponse envStoreNon2xx st0 "c" "v").2.1 :=
  storeTokens_non2xx_nonfatal envStoreNon2xx st0 "c" "v" "idt" bodyOk rfl rfl rfl
    ⟨"uid", some "sess", rfl⟩ rfl

/-- Auth-store state whose busy flag is already set. -/
def stBusy : AuthState := { authLoading := true, processedCodes := [], promptReady := true }

/-- Counterexample to C7 as stated: with the busy flag already set,
`signInWithGoogle` still launches the provider consent prompt and completes
without any rejection — there is no `AlreadyInProgress` check in the code. -/
theorem signInWithGoogle_busy_not_rejected :
    (signInWithGoogle stBusy PromptResult.cancelled).2.1 = [AuthEffect.prompt]
    ∧ (signInWithGoogle stBusy PromptResult.cancelled).2.2 = Except.ok () := ⟨rfl, rfl⟩

/-- C7 amended: `signInWithGoogle` performs no busy-flag check at all —
whenever the auth request is initialized, busy or not, it launches the
provider prompt, and its only failure modes are an uninitialized request
and a thrown prompt; no `AlreadyInProgress` rejection exists. -/
theorem signInWithGoogle_no_busy_check (st : AuthState) (pr : PromptResult)
    (h : st.promptReady = true) :
    (signInWithGoogle st pr).2.1 = [AuthEffect.prompt]
    ∧ ((signInWithGoogle st pr).2.2 = Except.ok ()
        ∨ (signInWithGoogle st pr).2.2 = Except.error SignInErr.promptThrew) := by
  cases pr <;> simp [signInWithGoogle, h]

/-- Witness for the amended C7 at a concrete busy state. -/
theorem signInWithGoogle_no_busy_check_witness :
    (signInWithGoogle stBusy (PromptResult.success "x")).2.1 = [AuthEffect.prompt]
    ∧ ((signInWithGoogle stBusy (PromptResult.success "x")).2.2 = Except.ok ()
        ∨ (signInWithGoogle stBusy (PromptResult.success "x")).2.2
            = Except.error SignInErr.promptThrew) :=
  signInWithGoogle_no_busy_check stBusy (PromptResult.success "x") rfl

/-- C9: the busy flag is released on every exit path — `signInWithGoogle`
ends with `authLoading = false` on a cancelled, errored, or thrown prompt,
and a subsequent call is accepted (it launches the prompt again, with no
`AlreadyInProgress`); on the success path, `handleAuthResponse` ends with
`authLoading = false` for every outcome of the exchange, the identity
sign-in and the token-storage step. -/
theorem busy_flag_release (env : AuthEnv) (st : AuthState) (c v : String)
    (hp : st.promptReady = true)
    (hc : st.processedCodes.contains c = false) :
    (signInWithGoogle st PromptResult.cancelled).1.authLoading = false
    ∧ (signInWithGoogle st PromptResult.errored).1.authLoading = false
    ∧ (signInWithGoogle st PromptResult.threw).1.authLoading = false
    ∧ (signInWithGoogle (signInWithGoogle st PromptResult.cancelled).1
         PromptResult.cancelled).2.1 = [AuthEffect.prompt]
    ∧ (handleAuthResponse env st c v).1.authLoading = false
    ∧ (handleAuthResponse env (signInWithGoogle st (PromptResult.success c)).1 c v).1.authLoading
        = false := by
  refine ⟨?_, ?_, ?_, ?_, ?_, ?_⟩
  · simp [signInWithGoogle, hp]
  · simp [signInWithGoogle, hp]
  · simp [signInWithGoogle, hp]
  · simp [signInWithGoogle, hp]
  · rw [handleAuthResponse_unseen env st c v hc]
  · have hc2 : c ∉ st.processedCodes := by simpa using hc
    have hmid : (signInWithGoogle st (PromptResult.success c)).1.processedCodes.contains c
        = false := by simp [signInWithGoogle, hp, hc2]
    rw [handleAuthResponse_unseen env _ c v hmid]

/-- Witness for C9 at a concrete fresh state. -/
theorem busy_flag_release_witness :
    (signInWithGoogle st0 PromptResult.cancelled).1.authLoading = false
    ∧ (signInWithGoogle st0 PromptResult.errored).1.authLoading = false
    ∧ (signInWithGoogle st0 PromptResult.threw).1.authLoading = false
    ∧ (signInWithGoogle (signInWithGoogle st0 PromptResult.cancelled).1
         PromptResult.cancelled).2.1 = [AuthEffect.prompt]
    ∧ (handleAuthResponse envAllOk st0 "c" "v").1.authLoading = false
    ∧ (handleAuthResponse envAllOk (signInWithGoogle st0 (PromptResult.success "c")).1
         "c" "v").1.authLoading = false :=
  busy_flag_release envAllOk st0 "c" "v" rfl rfl

/-- Membership characterization of the `listActive` query: an event is
returned exactly when it is in the store, owned by the user, starts no
later than the end of the UTC day and ends no earlier than its start. -/
lemma mem_listActive (store : List CalendarEvent) (u : String) (date : CivilDate)
    (e : CalendarEvent) :
    e ∈ listActive store u date ↔
      e ∈ store ∧ e.userId = u ∧ e.startTime ≤ (getUTCDayBounds date).2 ∧
        (getUTCDayBounds date).1 ≤ e.endTime := by
  unfold listActive
  rw [List.Perm.mem_iff (List.perm_insertionSort _ _), List.mem_filter]
  simp [activeOn, and_assoc]

/-- The `listActive` result is sorted by `start_time` ascending. -/
lemma listActive_sorted (store : List CalendarEvent) (u : String) (date : CivilDate) :
    List.Sorted startLE (listActive store u date) :=
  List.sorted_insertionSort startLE _

/-- The `listActive` result is a permutation of the filtered store — it
returns exactly the matching rows, nothing added, nothing dropped. -/
lemma listActive_perm (store : List CalendarEvent) (u : String) (date : CivilDate) :
    (listActive store u date).Perm
      (store.filter (activeOn u (getUTCDayBounds date).1 (getUTCDayBounds date).2)) :=
  List.perm_insertionSort startLE _

/-- Concrete day for the boundary scenario: 2024-03-15 (UTC). -/
def dayD : CivilDate := ⟨2024, 3, 15⟩

/-- Event spanning the day boundary: starts 2024-03-14 23:00 UTC, ends
2024-03-15 01:00 UTC. -/
def eBoundary : CalendarEvent :=
  { id := "e1", userId := "u", googleEventId := none, title := "boundary",
    description := none, startTime := dateUTC 2024 3 14 23 0 0 0,
    endTime := dateUTC 2024 3 15 1 0 0 0, allDay := false }

/-- Event lying entirely before the selected day. -/
def eBefore : CalendarEvent :=
  { id := "e2", userId := "u", googleEventId := none, title := "before",
    description := none, startTime := dateUTC 2024 3 14 10 0 0 0,
    endTime := dateUTC 2024 3 14 11 0 0 0, allDay := false }

/-- Event lying entirely after the selected day. -/
def eAfter : CalendarEvent :=
  { id := "e3", userId := "u", googleEventId := none, title := "after",
    description := none, startTime := dateUTC 2024 3 16 10 0 0 0,
    endTime := dateUTC 2024 3 16 11 0 0 0, allDay := false }

/-- C4: for every user `u` and UTC day `D`, `listActive(u, D)` returns
exactly the events owned by `u` with `startTime ≤ D 23:59:59.999 UTC` and
`endTime ≥ D 00:00:00.000 UTC`, ordered by `startTime` ascending; in
particular an event with `startTime = D-1 23:00 UTC` and
`endTime = D 01:00 UTC` is included, and events lying entirely before or
entirely after the window are excluded. -/
theorem listActive_window_correct (store : List CalendarEvent) (u : String)
    (date : CivilDate) (e : CalendarEvent) :
    (e ∈ listActive store u date ↔
       e ∈ store ∧ e.userId = u ∧ e.startTime ≤ (getUTCDayBounds date).2 ∧
         (getUTCDayBounds date).1 ≤ e.endTime)
    ∧ List.Sorted startLE (listActive store u date)
    ∧ (listActive store u date).Perm
        (store.filter (activeOn u (getUTCDayBounds date).1 (getUTCDayBounds date).2))
    ∧ eBoundary ∈ listActive [eBefore, eBoundary, eAfter] "u" dayD
    ∧ eBefore ∉ listActive [eBefore, eBoundary, eAfter] "u" dayD
    ∧ eAfter ∉ listActive [eBefore, eBoundary, eAfter] "u" dayD :=
  ⟨mem_listActive store u date e, listActive_sorted store u date,
   listActive_perm store u date, by decide, by decide, by decide⟩

/-- The inserted row is a member of the store it was appended to. -/
lemma insertedRow_mem (store : List CalendarEvent) (u newId : String)
    (draft : EventDraft) :
    insertedRow u newId draft ∈ store ++ [insertedRow u newId draft] := by simp

/-- `createEvent` resolves successfully for every outcome of the
best-effort external push. -/
lemma createEvent_ok (store : List CalendarEvent) (draft : EventDraft) (u newId : String)
    (bc : Bool) (tok : Option String) (push : PushOutcome) :
    (createEvent (some u) store draft newId false bc tok push).2.2 = Except.ok () := by
  rcases tok with _ | t <;> rcases bc with _ | _ <;> rcases push with _ | ⟨ok, gid⟩
  all_goals try rcases ok with _ | _
  all_goals try rcases gid with _ | g
  all_goals simp [createEvent]

/-- After `createEvent`, the store contains a row carrying the draft data
under the new id, for every outcome of the best-effort external push. -/
lemma createEvent_store_spec (store : List CalendarEvent) (draft : EventDraft)
    (u newId : String) (bc : Bool) (tok : Option String) (push : PushOutcome) :
    ∃ e ∈ (createEvent (some u) store draft newId false bc tok push).1,
      e.id = newId ∧ e.userId = u ∧ e.startTime = draft.startTime ∧
        e.endTime = draft.endTime := by
  rcases tok with _ | t <;> rcases bc with _ | _ <;> rcases push with _ | ⟨ok, gid⟩
  all_goals try rcases ok with _ | _
  all_goals try rcases gid with _ | g
  case some.true.respond.true.some =>
    refine ⟨{ insertedRow u newId draft with googleEventId := some g }, ?_, rfl, rfl, rfl, rfl⟩
    simp [createEvent, insertedRow]
  all_goals exact ⟨insertedRow u newId draft, by simp [createEvent, insertedRow], rfl, rfl, rfl, rfl⟩

/-- C3: `create(u, draft)` resolves successfully and the created event is
retrievable via `listActive` (for any day whose window its times overlap)
even when the best-effort push to the external calendar provider fails in
any way — network rejection, non-ok response, or a response without an id;
only a failure of the initial local-store insert makes `create` fail. -/
theorem createEvent_local_durability (store : List CalendarEvent) (draft : EventDraft)
    (u newId : String) (bc : Bool) (tok : Option String) (push : PushOutcome)
    (date : CivilDate)
    (hs : draft.startTime ≤ (getUTCDayBounds date).2)
    (he : (getUTCDayBounds date).1 ≤ draft.endTime) :
    (createEvent (some u) store draft newId false bc tok push).2.2 = Except.ok ()
    ∧ (∃ e ∈ listActive (createEvent (some u) store draft newId false bc tok push).1 u date,
        e.id = newId ∧ e.userId = u ∧ e.startTime = draft.startTime ∧
          e.endTime = draft.endTime)
    ∧ (createEvent (some u) store draft newId true bc tok push).2.2
        = Except.error SyncError.persistError := by
  refine ⟨createEvent_ok store draft u newId bc tok push, ?_, by simp [createEvent]⟩
  obtain ⟨e, hmem, hid, hu, hst, hen⟩ := createEvent_store_spec store draft u newId bc tok push
  refine ⟨e, ?_, hid, hu, hst, hen⟩
  exact (mem_listActive _ u date e).mpr ⟨hmem, hu, by rw [hst]; exact hs, by rw [hen]; exact he⟩

/-- Draft event lying inside the 2024-03-15 UTC day window. -/
def draft3 : EventDraft :=
  { title := "t3", description := none, startTime := dateUTC 2024 3 15 9 0 0 0,
    endTime := dateUTC 2024 3 15 10 0 0 0, allDay := false }

/-- Witness for C3 with a rejecting external push. -/
theorem createEvent_local_durability_witness :
    (createEvent (some "u") [] draft3 "n1" false true (some "tok") PushOutcome.reject).2.2
        = Except.ok ()
    ∧ (∃ e ∈ listActive (createEvent (some "u") [] draft3 "n1" false true (some "tok")
          PushOutcome.reject).1 "u" dayD,
        e.id = "n1" ∧ e.userId = "u" ∧ e.startTime = draft3.startTime ∧
          e.endTime = draft3.endTime)
    ∧ (createEvent (some "u") [] draft3 "n1" true true (some "tok") PushOutcome.reject).2.2
        = Except.error SyncError.persistError :=
  createEvent_local_durability [] draft3 "u" "n1" true (some "tok") PushOutcome.reject dayD
    (by decide) (by decide)

/-- Event owned by user u1, target of the cross-user attempts. -/
def e5 : CalendarEvent :=
  { id := "e5", userId := "u1", googleEventId := none, title := "t5",
    description := none, startTime := 0, endTime := 1, allDay := false }

/-- Counterexample to C5 as stated: a cross-user `update` and a cross-user
`delete` complete without any error (a zero-row-matching supabase mutation
reports no error), leaving the record unmodified — they do not fail with
`NotFoundOrForbidden`. -/
theorem crossUser_update_delete_no_error :
    (updateEvent (some "u2") [e5] "e5" { title := some "x" } false).2.2 = Except.ok ()
    ∧ (updateEvent (some "u2") [e5] "e5" { title := some "x" } false).1 = [e5]
    ∧ (deleteEventLocal (some "u2") [e5] "e5" false).2.2 = Except.ok ()
    ∧ (deleteEventLocal (some "u2") [e5] "e5" false).1 = [e5] := ⟨rfl, rfl, rfl, rfl⟩

/-- C5 amended: for users `u1 ≠ u2` and an event `e` owned by `u1`,
`update(u2, e.id, patch)` and `delete(u2, e.id)` leave `e` unmodified —
the mutation is a single conditional requiring both `id` and `userId` to
match — but they complete without error (a silent zero-row no-op) rather
than failing with `NotFoundOrForbidden`. -/
theorem ownership_scoped_silent_noop (store : List CalendarEvent) (e : CalendarEvent)
    (u1 u2 : String) (p : EventPatch)
    (hne : u1 ≠ u2) (hmem : e ∈ store) (hu : e.userId = u1) :
    (updateEvent (some u2) store e.id p false).2.2 = Except.ok ()
    ∧ e ∈ (updateEvent (some u2) store e.id p false).1
    ∧ (deleteEventLocal (some u2) store e.id false).2.2 = Except.ok ()
    ∧ e ∈ (deleteEventLocal (some u2) store e.id false).1 := by
  have hbeq : (e.userId == u2) = false := by
    simp [hu]; exact hne
  refine ⟨rfl, ?_, rfl, ?_⟩
  · simp only [updateEvent]
    refine List.mem_map.mpr ⟨e, hmem, ?_⟩
    simp [hbeq]
  · simp only [deleteEventLocal]
    refine List.mem_filter.mpr ⟨hmem, ?_⟩
    simp [hbeq]

/-- Witness for the amended C5 at a concrete store. -/
theorem ownership_scoped_silent_noop_witness :
    (updateEvent (some "u2") [e5] e5.id { title := some "x" } false).2.2 = Except.ok ()
    ∧ e5 ∈ (updateEvent (some "u2") [e5] e5.id { title := some "x" } false).1
    ∧ (deleteEventLocal (some "u2") [e5] e5.id false).2.2 = Except.ok ()
    ∧ e5 ∈ (deleteEventLocal (some "u2") [e5] e5.id false).1 :=
  ownership_scoped_silent_noop [e5] e5 "u1" "u2" { title := some "x" }
    (by decide) (List.mem_singleton_self e5) rfl

/-- C6: for an event whose `externalEventId` is set, `delete(u, e.id)`
attempts the best-effort external provider deletion first and only then
performs the ownership-scoped local delete; a failure of the external
deletion is logged and does not prevent the local record from being
removed. -/
theorem deleteEvent_external_first (store : List CalendarEvent) (e : CalendarEvent)
    (u i gid t : String) (extDelete : PushOutcome)
    (hfilter : store.filter (fun x => x.id == i && x.userId == u) = [e])
    (hg : e.googleEventId = some gid) :
    (deleteEvent (some u) store i true (some t) extDelete false).2.2 = Except.ok ()
    ∧ (∀ x ∈ (deleteEvent (some u) store i true (some t) extDelete false).1,
         ¬(x.id = i ∧ x.userId = u))
    ∧ ((deleteEvent (some u) store i true (some t) extDelete false).2.1
         = [StoreEffect.lookup i u, StoreEffect.externalDelete i gid,
            StoreEffect.localDelete i u, StoreEffect.refetch]
       ∨ (deleteEvent (some u) store i true (some t) extDelete false).2.1
         = [StoreEffect.lookup i u, StoreEffect.externalDelete i gid,
            StoreEffect.logError "Error deleting event from Google:",
            StoreEffect.localDelete i u, StoreEffect.refetch]) := by
  refine ⟨by simp [deleteEvent], ?_, ?_⟩
  · intro x hx
    simp [deleteEvent, List.mem_filter] at hx
    rintro ⟨h1, h2⟩
    rcases hx.2 with h | h <;> exact h (by assumption)
  · rcases extDelete with _ | ⟨ok2, g2⟩
    · right; simp [deleteEvent, hfilter, hg]
    · left; simp [deleteEvent, hfilter, hg]

/-- Event pushed to the external provider under id g123. -/
def e6 : CalendarEvent :=
  { id := "e6", userId := "u", googleEventId := some "g123", title := "t6",
    description := none, startTime := 0, endTime := 1, allDay := false }

/-- Witness for C6 with the external deletion call failing. -/
theorem deleteEvent_external_first_witness :
    (deleteEvent (some "u") [e6] "e6" true (some "tok") PushOutcome.reject false).2.2
        = Except.ok ()
    ∧ (∀ x ∈ (deleteEvent (some "u") [e6] "e6" true (some "tok") PushOutcome.reject false).1,
         ¬(x.id = "e6" ∧ x.userId = "u"))
    ∧ ((deleteEvent (some "u") [e6] "e6" true (some "tok") PushOutcome.reject false).2.1
         = [StoreEffect.lookup "e6" "u", StoreEffect.externalDelete "e6" "g123",
            StoreEffect.localDelete "e6" "u", StoreEffect.refetch]
       ∨ (deleteEvent (some "u") [e6] "e6" true (some "tok") PushOutcome.reject false).2.1
         = [StoreEffect.lookup "e6" "u", StoreEffect.externalDelete "e6" "g123",
            StoreEffect.logError "Error deleting event from Google:",
            StoreEffect.localDelete "e6" "u", StoreEffect.refetch]) :=
  deleteEvent_external_first [e6] e6 "u" "e6" "g123" "tok" PushOutcome.reject rfl rfl

/-- C8 amended: on a transport/query failure of the remote-store query,
`fetchEvents` catches the error, logs it, leaves the cached events list
unchanged, clears `loading`, and resolves without surfacing any error to
the caller — recovery is only via a manual refresh re-running the fetch. -/
theorem fetchEvents_failure_swallowed (u : String) (store : List CalendarEvent)
    (date : CivilDate) (st : EventsState) :
    (fetchEvents (some u) store QueryOutcome.fail date st).2.2 = Except.ok ()
    ∧ (fetchEvents (some u) store QueryOutcome.fail date st).1.events = st.events
    ∧ (fetchEvents (some u) store QueryOutcome.fail date st).1.loading = false
    ∧ StoreEffect.logError "Error fetching events:"
        ∈ (fetchEvents (some u) store QueryOutcome.fail date st).2.1 :=
  ⟨rfl, rfl, rfl, by simp [fetchEvents]⟩

/-- A cached event present before the failing fetch. -/
def e8 : CalendarEvent :=
  { id := "e8", userId := "u", googleEventId := none, title := "t8",
    description := none, startTime := 0, endTime := 1, allDay := false }

/-- Counterexample to C8 as stated: on a failing query, `fetchEvents`
completes without error (the error is caught and only logged, nothing is
surfaced to the caller), keeping the previously cached events — it does
not fail with a `FetchError`. -/
theorem fetchEvents_failure_cex :
    (fetchEvents (some "u") [] QueryOutcome.fail dayD ⟨[e8], true⟩).2.2 = Except.ok ()
    ∧ (fetchEvents (some "u") [] QueryOutcome.fail dayD ⟨[e8], true⟩).1.events = [e8] :=
  ⟨rfl, rfl⟩

/-- C10: with no authenticated user, `fetchEvents`, `createEvent`,
`updateEvent` and `deleteEvent` all return immediately without error,
without issuing any store query or mutation, leaving the store and the
cached events state unchanged. -/
theorem no_user_noop (store : List CalendarEvent) (st : EventsState) (q : QueryOutcome)
    (date : CivilDate) (draft : EventDraft) (newId i : String) (insF bc uf ldf : Bool)
    (tok : Option String) (push extD : PushOutcome) (p : EventPatch) :
    fetchEvents none store q date st = (st, [], Except.ok ())
    ∧ createEvent none store draft newId insF bc tok push = (store, [], Except.ok ())
    ∧ updateEvent none store i p uf = (store, [], Except.ok ())
    ∧ deleteEvent none store i bc tok extD ldf = (store, [], Except.ok ()) :=
  ⟨rfl, rfl, rfl, rfl⟩
